import Mathlib

/-!
Shallow embedding of the netchoo network traffic monitor (netchoo.py).

The system-facing inputs (contents of /proc/net/dev, per-interface
operstate files, /sys/class/net existence, the wall clock) are passed in
explicitly as parameters; counters are integers and timestamps/rates are
rationals.  GUI scaffolding (widget layout, drawing) is outside the data
model; the stateful parts (the previous-snapshot map of NetworkStats, the
data_points / max_rate fields of TrafficGraph, and the per-tick update of
NetworkMonitor.update_traffic) are embedded as explicit state-passing
functions.
-/

namespace Netchoo

/-- NetworkStats.previous_stats entry: cumulative byte counters for one
interface together with the time at which they were read
(`{'rx_bytes': .., 'tx_bytes': .., 'time': ..}`). -/
structure Snapshot where
  rx_bytes : ℤ
  tx_bytes : ℤ
  time : ℚ
deriving DecidableEq, Repr

/-- Python `needle in hay` substring test, used by
NetworkStats.get_interface_stats on each /proc/net/dev line. -/
def containsSub (hay needle : String) : Bool :=
  hay.data.tails.any (fun t => needle.data.isPrefixOf t)

/-- Helper for pySplit: accumulate the current field (reversed) while
scanning the characters. -/
def pySplitAux : List Char → List Char → List String
  | [], acc => if acc.isEmpty then [] else [String.mk acc.reverse]
  | c :: rest, acc =>
    if c = ' ' then
      if acc.isEmpty then pySplitAux rest []
      else String.mk acc.reverse :: pySplitAux rest []
    else pySplitAux rest (c :: acc)

/-- Python `str.split()`: split on whitespace, discarding empty fields. -/
def pySplit (line : String) : List String :=
  pySplitAux line.data []

/-- Helper for pyInt: read a run of decimal digits into an accumulator;
none on any non-digit character. -/
def pyDigits : List Char → ℕ → Option ℕ
  | [], acc => some acc
  | c :: rest, acc =>
    if c.isDigit then pyDigits rest (acc * 10 + (c.toNat - 48)) else none

/-- Python `int()` on a decimal string with an optional leading minus
sign; none when the string is not a valid integer literal (in the
source this raises ValueError, caught by the enclosing handler). -/
def pyInt (s : String) : Option ℤ :=
  match s.data with
  | [] => none
  | ['-'] => none
  | '-' :: c :: rest => (pyDigits (c :: rest) 0).map (fun n => -(n : ℤ))
  | l => (pyDigits l 0).map (fun n => (n : ℤ))

/-- NetworkStats.get_interface_stats: scan the lines of /proc/net/dev for
the first line containing `interface + ':'` as a substring, and parse
fields 1 and 9 (rx_bytes, tx_bytes) of that line.  Any failure (no match,
missing fields, unparsable integers) yields (0, 0), mirroring the
function's catch-all exception handler. -/
def get_interface_stats (lines : List String) (interface : String) : ℤ × ℤ :=
  match lines.find? (fun l => containsSub l (interface ++ ":")) with
  | none => (0, 0)
  | some line =>
    let parts := pySplit line
    match parts.get? 1, parts.get? 9 with
    | some a, some b =>
      match pyInt a, pyInt b with
      | some rx, some tx => (rx, tx)
      | _, _ => (0, 0)
    | _, _ => (0, 0)

/-- NetworkStats.has_traffic_or_is_up.  `operstate` is the contents of
/sys/class/net/IFACE/operstate, `none` when reading it raises (the
catch-all `except: return True` path); `rx`/`tx` are the counters from
get_interface_stats (which never raises); `existsInSys` is
os.path.exists('/sys/class/net/IFACE'). -/
def has_traffic_or_is_up (operstate : Option String) (rx tx : ℤ)
    (existsInSys : Bool) : Bool :=
  match operstate with
  | none => true
  | some state =>
    if state = "up" then true
    else if 0 < rx ∨ 0 < tx then true
    else existsInSys

/-- NetworkStats.get_active_interfaces: every interface name parsed from
/proc/net/dev except 'lo', filtered by has_traffic_or_is_up. -/
def get_active_interfaces (ifaces : List String)
    (operstate : String → Option String) (stats : String → ℤ × ℤ)
    (existsInSys : String → Bool) : List String :=
  ifaces.filter (fun i =>
    i != "lo" &&
      has_traffic_or_is_up (operstate i) (stats i).1 (stats i).2 (existsInSys i))

/-- The body of the loop in NetworkStats.get_traffic_rates for one
interface: the rate entry written into `rates`, if any.  A rate is
produced only when a previous snapshot exists and the elapsed time is
strictly positive; each direction is `max 0 ((current - previous) /
elapsed)`. -/
def compute_rate (prev : List (String × Snapshot)) (read : String → ℤ × ℤ)
    (now : ℚ) (i : String) : Option (ℚ × ℚ) :=
  let rx := (read i).1
  let tx := (read i).2
  match List.lookup i prev with
  | none => none
  | some p =>
    let time_diff := now - p.time
    if 0 < time_diff then
      some (max 0 (((rx - p.rx_bytes : ℤ) : ℚ) / time_diff),
            max 0 (((tx - p.tx_bytes : ℤ) : ℚ) / time_diff))
    else none

/-- NetworkStats.get_traffic_rates: for each active interface, read its
counters, record the fresh snapshot in `current_stats`, and emit a rate
entry when compute_rate yields one.  Returns (rates, current_stats); the
caller's state update `self.previous_stats = current_stats` is the second
component replacing the first argument wholesale. -/
def get_traffic_rates (prev : List (String × Snapshot)) (active : List String)
    (read : String → ℤ × ℤ) (now : ℚ) :
    List (String × (ℚ × ℚ)) × List (String × Snapshot) :=
  (active.filterMap (fun i => (compute_rate prev read now i).map (fun r => (i, r))),
   active.map (fun i =>
     (i, { rx_bytes := (read i).1, tx_bytes := (read i).2, time := now })))

/-- Maximum of a nonempty list of rationals, as Python's max(); 0 on the
empty list, which the caller guards against. -/
def listMax : List ℚ → ℚ
  | [] => 0
  | a :: rest => rest.foldl max a

/-- The data-level state of a TrafficGraph widget: the (timestamp,
rx_rate, tx_rate) deque and the auto-scaling ceiling.  GUI-only fields
(widget size, docker-bridge colour flag, draw callbacks) are omitted. -/
structure TrafficGraph where
  data_points : List (ℚ × ℚ × ℚ)
  max_rate : ℚ
  auto_scale : Bool
deriving DecidableEq, Repr

/-- TrafficGraph.__init__ data fields: empty deque, 1 MiB/s initial
scale, auto-scaling on. -/
def TrafficGraph.init : TrafficGraph :=
  { data_points := [], max_rate := 1024 * 1024, auto_scale := true }

/-- The auto-scaling block of TrafficGraph.add_data_point (the
`if self.auto_scale and self.data_points:` body): the new max_rate as a
function of the current max_rate, the auto_scale flag and the retained
samples. -/
def auto_scale_update (max_rate : ℚ) (auto : Bool)
    (dps : List (ℚ × ℚ × ℚ)) : ℚ :=
  if auto && !dps.isEmpty then
    let all_rates := dps.map (fun p => p.2.1) ++ dps.map (fun p => p.2.2)
    if !all_rates.isEmpty then
      let max_current := listMax all_rates
      if max_rate * 0.8 < max_current then max_current * 1.2
      else if max_current < max_rate * 0.3 ∧ 1024 < max_rate then
        max (max_current * 1.5) 1024
      else max_rate
    else max_rate
  else max_rate

/-- TrafficGraph.add_data_point: append the new (now, rx, tx) sample,
evict from the front every sample with timestamp strictly below
`now - W` (W is the SERIES_TIME_WINDOW global), then apply the
auto-scaling rule to max_rate using the maximum rate over the retained
samples. -/
def add_data_point (W : ℚ) (now rx tx : ℚ) (g : TrafficGraph) : TrafficGraph :=
  let dps := g.data_points ++ [(now, rx, tx)]
  let cutoff := now - W
  let dps := dps.dropWhile (fun p => decide (p.1 < cutoff))
  { data_points := dps,
    max_rate := auto_scale_update g.max_rate g.auto_scale dps,
    auto_scale := g.auto_scale }

/-- Round to the nearest integer, ties to even: the rounding of Python's
fixed-point float formatting, applied here to the exact rational value. -/
def round_half_even (q : ℚ) : ℤ :=
  let f := ⌊q⌋
  let r := q - f
  if r < 1/2 then f
  else if 1/2 < r then f + 1
  else if f % 2 = 0 then f
  else f + 1

/-- Python f-string `:.0f` formatting of a nonnegative value. -/
def fmt0 (q : ℚ) : String :=
  toString (round_half_even q)

/-- Python f-string `:.1f` formatting of a nonnegative value. -/
def fmt1 (q : ℚ) : String :=
  let n := round_half_even (q * 10)
  toString (n / 10) ++ "." ++ toString (n % 10)

/-- TrafficGraph.format_bytes: human-readable bytes/sec with 1024-based
thresholds. -/
def format_bytes (bytes_per_sec : ℚ) : String :=
  if bytes_per_sec < 1024 then fmt0 bytes_per_sec ++ " B/s"
  else if bytes_per_sec < 1024 * 1024 then fmt1 (bytes_per_sec / 1024) ++ " KB/s"
  else if bytes_per_sec < 1024 * 1024 * 1024 then
    fmt1 (bytes_per_sec / (1024 * 1024)) ++ " MB/s"
  else fmt1 (bytes_per_sec / (1024 * 1024 * 1024)) ++ " GB/s"

/-- The body of the loop in NetworkMonitor.update_traffic for one
tracked interface: one add_data_point call, with the interface's entry
from `rates` when present and with (0, 0) otherwise. -/
def update_graph_entry (W now : ℚ) (rates : List (String × (ℚ × ℚ)))
    (k : String) (v : TrafficGraph) : TrafficGraph :=
  match List.lookup k rates with
  | some r => add_data_point W now r.1 r.2 v
  | none => add_data_point W now 0 0 v

/-- The graph-updating loop of NetworkMonitor.update_traffic: every
tracked interface's graph receives exactly one add_data_point call. -/
def update_traffic (W now : ℚ) (graphs : List (String × TrafficGraph))
    (rates : List (String × (ℚ × ℚ))) : List (String × TrafficGraph) :=
  graphs.map (fun gi => (gi.1, update_graph_entry W now rates gi.1 gi.2))

/-- The startup validation in main(): after parsing arguments, the
process rejects the configuration (prints an error and returns exit code
1 before constructing the monitor) exactly when the time window is
non-positive; the sample interval is never validated.  Returns true when
the monitoring loop is started. -/
def main_starts (time_window sample_interval : ℤ) : Bool :=
  if time_window ≤ 0 then false else true

/-- Stated from the spec, for comparison with has_traffic_or_is_up: an
interface is active if its operational state reads "up", OR its rx and tx
counters are both nonzero, OR it exists in the device registry and its
state could not be determined. -/
def spec_is_active (operstate : Option String) (rx tx : ℤ)
    (existsInSys : Bool) : Bool :=
  decide (operstate = some "up") || (decide (rx ≠ 0) && decide (tx ≠ 0)) ||
    (existsInSys && decide (operstate = none))

/-! ### Helper lemmas on association lists built from an interface list -/

theorem lookup_filterMap_eq_none {β : Type} (g : String → Option β)
    (l : List String) (i : String) (hi : i ∉ l) :
    List.lookup i (l.filterMap (fun j => (g j).map (fun r => (j, r)))) = none := by
  induction l with
  | nil => simp [List.lookup]
  | cons a t ih =>
    have hia : i ≠ a := fun h => hi (h ▸ List.mem_cons_self a t)
    have hit : i ∉ t := fun h => hi (List.mem_cons_of_mem a h)
    cases h : g a with
    | none => simpa [List.filterMap_cons, h] using ih hit
    | some v =>
      simp only [List.filterMap_cons, h, Option.map_some]
      simpa [List.lookup, beq_eq_false_iff_ne.mpr hia] using ih hit

theorem lookup_filterMap {β : Type} (g : String → Option β)
    (l : List String) (i : String) (hi : i ∈ l) :
    List.lookup i (l.filterMap (fun j => (g j).map (fun r => (j, r)))) = g i := by
  induction l with
  | nil => cases hi
  | cons a t ih =>
    by_cases hia : i = a
    · subst hia
      cases h : g i with
      | none =>
        by_cases hit : i ∈ t
        · simpa [List.filterMap_cons, h] using (ih hit).trans h
        · simpa [List.filterMap_cons, h] using lookup_filterMap_eq_none g t i hit
      | some v => simp [List.filterMap_cons, h, List.lookup]
    · have hit : i ∈ t := (List.mem_cons.mp hi).resolve_left hia
      cases h : g a with
      | none => simpa [List.filterMap_cons, h] using ih hit
      | some v =>
        simp only [List.filterMap_cons, h, Option.map_some]
        simpa [List.lookup, beq_eq_false_iff_ne.mpr hia] using ih hit

theorem lookup_map_key {β : Type} (f : String → β) (l : List String)
    (i : String) (hi : i ∈ l) :
    List.lookup i (l.map (fun j => (j, f j))) = some (f i) := by
  induction l with
  | nil => cases hi
  | cons a t ih =>
    by_cases hia : i = a
    · subst hia; simp [List.lookup]
    · have hit : i ∈ t := (List.mem_cons.mp hi).resolve_left hia
      simpa [List.lookup, beq_eq_false_iff_ne.mpr hia] using ih hit

/-! ### Claims about the rate computation (RateEngine) -/

/-- Claim C1 counterexample: with a stored snapshot for eth0 taken at
time 10 and counters (0, 0), a second read at the same time 10 with
counters (100, 100) yields no rate (elapsed = 0), but the stored prior
snapshot is NOT left unchanged: previous_stats is replaced wholesale
with the fresh snapshot. -/
theorem claim_C1_counterexample :
    (get_traffic_rates [("eth0", ⟨0, 0, 10⟩)] ["eth0"]
        (fun _ => (100, 100)) 10).1 = [] ∧
    (get_traffic_rates [("eth0", ⟨0, 0, 10⟩)] ["eth0"]
        (fun _ => (100, 100)) 10).2 = [("eth0", ⟨100, 100, 10⟩)] ∧
    ([("eth0", (⟨100, 100, 10⟩ : Snapshot))] : List (String × Snapshot)) ≠
      [("eth0", ⟨0, 0, 10⟩)] := by
  refine ⟨?_, ?_, ?_⟩
  · norm_num [get_traffic_rates, compute_rate, List.lookup]
  · norm_num [get_traffic_rates]
  · simp [Snapshot.mk.injEq]

/-- Claim C1 (amended): for an interface with a stored prior snapshot,
when the elapsed time is non-positive no rate is returned for it, but
the stored prior snapshot is nevertheless replaced with the current
snapshot (the baseline map is rebuilt from the current read on every
tick, regardless of elapsed). -/
theorem claim_C1_amended (prev : List (String × Snapshot))
    (active : List String) (read : String → ℤ × ℤ) (now : ℚ) (i : String)
    (p : Snapshot) (hi : i ∈ active) (hp : List.lookup i prev = some p)
    (ht : now - p.time ≤ 0) :
    List.lookup i (get_traffic_rates prev active read now).1 = none ∧
    List.lookup i (get_traffic_rates prev active read now).2 =
      some ⟨(read i).1, (read i).2, now⟩ := by
  constructor
  · have h := lookup_filterMap (compute_rate prev read now) active i hi
    rw [get_traffic_rates] at *
    rw [h, compute_rate, hp]
    simp [not_lt.mpr ht]
  · exact lookup_map_key _ active i hi

/-- Witness for claim C1 (amended) at a concrete input. -/
theorem claim_C1_amended_witness :
    List.lookup "eth0"
      (get_traffic_rates [("eth0", ⟨5, 7, 10⟩)] ["eth0"]
        (fun _ => (100, 100)) 10).1 = none ∧
    List.lookup "eth0"
      (get_traffic_rates [("eth0", ⟨5, 7, 10⟩)] ["eth0"]
        (fun _ => (100, 100)) 10).2 = some ⟨100, 100, 10⟩ :=
  claim_C1_amended [("eth0", ⟨5, 7, 10⟩)] ["eth0"] (fun _ => (100, 100)) 10
    "eth0" ⟨5, 7, 10⟩ (by simp) (by simp [List.lookup]) (by norm_num)

/-- Claim C5: with a stored prior snapshot, counters that did not
decrease and strictly positive elapsed time, the computed rates are
exactly (current - prior) / elapsed for each direction, and both are
non-negative. -/
theorem claim_C5 (prev : List (String × Snapshot)) (active : List String)
    (read : String → ℤ × ℤ) (now : ℚ) (i : String) (p : Snapshot)
    (hi : i ∈ active) (hp : List.lookup i prev = some p)
    (hrx : p.rx_bytes ≤ (read i).1) (htx : p.tx_bytes ≤ (read i).2)
    (ht : 0 < now - p.time) :
    List.lookup i (get_traffic_rates prev active read now).1 =
      some ((((read i).1 - p.rx_bytes : ℤ) : ℚ) / (now - p.time),
            (((read i).2 - p.tx_bytes : ℤ) : ℚ) / (now - p.time)) ∧
    0 ≤ (((read i).1 - p.rx_bytes : ℤ) : ℚ) / (now - p.time) ∧
    0 ≤ (((read i).2 - p.tx_bytes : ℤ) : ℚ) / (now - p.time) := by
  have h0rx : (0 : ℚ) ≤ (((read i).1 - p.rx_bytes : ℤ) : ℚ) / (now - p.time) := by
    apply div_nonneg _ (le_of_lt ht)
    exact_mod_cast sub_nonneg.mpr hrx
  have h0tx : (0 : ℚ) ≤ (((read i).2 - p.tx_bytes : ℤ) : ℚ) / (now - p.time) := by
    apply div_nonneg _ (le_of_lt ht)
    exact_mod_cast sub_nonneg.mpr htx
  refine ⟨?_, h0rx, h0tx⟩
  have h := lookup_filterMap (compute_rate prev read now) active i hi
  rw [get_traffic_rates]
  rw [h, compute_rate, hp]
  simp only [ht, if_pos]
  rw [max_eq_right h0rx, max_eq_right h0tx]

/-- Witness for claim C5 at a concrete input. -/
theorem claim_C5_witness :
    List.lookup "eth0"
      (get_traffic_rates [("eth0", ⟨5, 7, 10⟩)] ["eth0"]
        (fun _ => (25, 17)) 12).1 =
      some ((((25 : ℤ) - (5 : ℤ) : ℤ) : ℚ) / ((12 : ℚ) - 10),
            (((17 : ℤ) - (7 : ℤ) : ℤ) : ℚ) / ((12 : ℚ) - 10)) ∧
    0 ≤ (((25 : ℤ) - (5 : ℤ) : ℤ) : ℚ) / ((12 : ℚ) - 10) ∧
    0 ≤ (((17 : ℤ) - (7 : ℤ) : ℤ) : ℚ) / ((12 : ℚ) - 10) :=
  claim_C5 [("eth0", ⟨5, 7, 10⟩)] ["eth0"] (fun _ => (25, 17)) 12 "eth0"
    ⟨5, 7, 10⟩ (by simp) (by simp [List.lookup]) (by norm_num) (by norm_num)
    (by norm_num)

/-- Claim C6: with a stored prior snapshot and strictly positive elapsed
time, a direction whose current counter is below the prior counter
yields a rate of exactly 0. -/
theorem claim_C6 (prev : List (String × Snapshot)) (active : List String)
    (read : String → ℤ × ℤ) (now : ℚ) (i : String) (p : Snapshot)
    (hi : i ∈ active) (hp : List.lookup i prev = some p)
    (ht : 0 < now - p.time) :
    ((read i).1 < p.rx_bytes →
      Option.map Prod.fst
        (List.lookup i (get_traffic_rates prev active read now).1) = some 0) ∧
    ((read i).2 < p.tx_bytes →
      Option.map Prod.snd
        (List.lookup i (get_traffic_rates prev active read now).1) = some 0) := by
  have h := lookup_filterMap (compute_rate prev read now) active i hi
  rw [get_traffic_rates]
  rw [h, compute_rate, hp]
  simp only [ht, if_pos]
  constructor
  · intro hlt
    have hneg : (((read i).1 : ℚ) - (p.rx_bytes : ℚ)) / (now - p.time) ≤ 0 := by
      apply le_of_lt
      apply div_neg_of_neg_of_pos _ ht
      rw [sub_neg]
      exact_mod_cast hlt
    simp [max_eq_left hneg]
  · intro hlt
    have hneg : (((read i).2 : ℚ) - (p.tx_bytes : ℚ)) / (now - p.time) ≤ 0 := by
      apply le_of_lt
      apply div_neg_of_neg_of_pos _ ht
      rw [sub_neg]
      exact_mod_cast hlt
    simp [max_eq_left hneg]

/-- Witness for claim C6 at a concrete input (both counters regress). -/
theorem claim_C6_witness :
    (((3 : ℤ), (2 : ℤ)).1 < (⟨5, 7, 10⟩ : Snapshot).rx_bytes →
      Option.map Prod.fst
        (List.lookup "eth0"
          (get_traffic_rates [("eth0", ⟨5, 7, 10⟩)] ["eth0"]
            (fun _ => (3, 2)) 12).1) = some 0) ∧
    (((3 : ℤ), (2 : ℤ)).2 < (⟨5, 7, 10⟩ : Snapshot).tx_bytes →
      Option.map Prod.snd
        (List.lookup "eth0"
          (get_traffic_rates [("eth0", ⟨5, 7, 10⟩)] ["eth0"]
            (fun _ => (3, 2)) 12).1) = some 0) :=
  claim_C6 [("eth0", ⟨5, 7, 10⟩)] ["eth0"] (fun _ => (3, 2)) 12 "eth0"
    ⟨5, 7, 10⟩ (by simp) (by simp [List.lookup]) (by norm_num)

/-- Claim C8: for a never-seen interface the first sample yields no
rate; a second sample exactly 1 second later with an rx byte delta of
1,048,576 yields rx_rate = 1,048,576 bytes/sec, which format_bytes
renders as "1.0 MB/s". -/
theorem claim_C8 :
    (get_traffic_rates [] ["tun0"] (fun _ => (0, 0)) 100).1 = [] ∧
    (get_traffic_rates
        (get_traffic_rates [] ["tun0"] (fun _ => (0, 0)) 100).2
        ["tun0"] (fun _ => (1048576, 0)) 101).1 =
      [("tun0", (1048576, 0))] ∧
    format_bytes 1048576 = "1.0 MB/s" := by
  have hprev : (get_traffic_rates [] ["tun0"] (fun _ => (0, 0)) 100).2 =
      [("tun0", ⟨0, 0, 100⟩)] := rfl
  have hc : compute_rate [("tun0", ⟨0, 0, 100⟩)] (fun _ => (1048576, 0)) 101
      "tun0" = some (1048576, 0) := by
    rw [compute_rate]
    simp only [List.lookup, beq_self_eq_true]
    norm_num [max_eq_right]
  refine ⟨?_, ?_, ?_⟩
  · norm_num [get_traffic_rates, compute_rate, List.lookup]
  · rw [hprev, get_traffic_rates]
    simp [hc]
  · have h1 : ((1048576 : ℚ) / (1024 * 1024)) = 1 := by norm_num
    have h2 : ((1 : ℚ) * 10) = 10 := by norm_num
    rw [format_bytes, if_neg (by norm_num), if_neg (by norm_num),
      if_pos (by norm_num), h1, fmt1, h2, round_half_even]
    norm_num
    rfl

/-- Claim C9: counter lookup matches by substring, not by exact
interface name: with a veth0 line (counters 111/222) before the eth0
line (counters 333/444) in /proc/net/dev, reading the counters for
"eth0" returns veth0's counters, because "eth0:" occurs as a substring
of the veth0 line. -/
theorem claim_C9 :
    get_interface_stats
      ["  veth0: 111 0 0 0 0 0 0 0 222 0 0 0 0 0 0 0",
       "  eth0: 333 0 0 0 0 0 0 0 444 0 0 0 0 0 0 0"] "eth0" = (111, 222) ∧
    get_interface_stats
      ["  veth0: 111 0 0 0 0 0 0 0 222 0 0 0 0 0 0 0",
       "  eth0: 333 0 0 0 0 0 0 0 444 0 0 0 0 0 0 0"] "veth0" = (111, 222) ∧
    (111, 222) ≠ ((333, 444) : ℤ × ℤ) := by
  refine ⟨?_, ?_, by decide⟩ <;> decide

/-! ### Claims about interface discovery (CounterSampler) -/

/-- Claim C3 counterexample: an interface whose operational state was
determined as "down" and whose counters are both zero IS included by
the code when it exists in /sys/class/net, although the claim's
criterion excludes it (state determined and not up, counters zero). -/
theorem claim_C3_counterexample :
    get_active_interfaces ["eth0"] (fun _ => some "down") (fun _ => (0, 0))
      (fun _ => true) = ["eth0"] ∧
    spec_is_active (some "down") 0 0 true = false := by
  constructor
  · decide
  · decide

/-- Characterization of has_traffic_or_is_up as a disjunction. -/
theorem has_traffic_iff (os : Option String) (rx tx : ℤ) (ex : Bool) :
    has_traffic_or_is_up os rx tx ex = true ↔
      os = none ∨ os = some "up" ∨ 0 < rx ∨ 0 < tx ∨ ex = true := by
  cases os with
  | none => simp [has_traffic_or_is_up]
  | some st =>
    simp only [has_traffic_or_is_up]
    by_cases hst : st = "up"
    · subst hst
      simp
    · by_cases htr : 0 < rx ∨ 0 < tx
      · rw [if_neg hst, if_pos htr]
        simp only [Option.some.injEq, reduceCtorEq, hst]
        tauto
      · rw [if_neg hst, if_neg htr]
        simp only [Option.some.injEq, reduceCtorEq, hst]
        tauto

/-- Claim C3 (amended): the listing excludes exactly the loopback
device, and includes an enumerated interface if and only if its
operational state could not be read (unconditional fail-open include),
or its state reads "up", or at least one of its rx/tx byte counters is
positive, or it exists in /sys/class/net; in particular an interface
with determined non-up state and zero counters is still included
whenever it exists in the device registry. -/
theorem claim_C3_amended (ifaces : List String)
    (operstate : String → Option String) (stats : String → ℤ × ℤ)
    (existsInSys : String → Bool) (i : String) :
    i ∈ get_active_interfaces ifaces operstate stats existsInSys ↔
      i ∈ ifaces ∧ i ≠ "lo" ∧
        (operstate i = none ∨ operstate i = some "up" ∨
          0 < (stats i).1 ∨ 0 < (stats i).2 ∨ existsInSys i = true) := by
  simp only [get_active_interfaces, List.mem_filter, Bool.and_eq_true,
    bne_iff_ne, ne_eq, has_traffic_iff]

/-! ### Helper lemmas about the windowed series (TrafficGraph) -/

theorem add_data_point_dps (W now rx tx : ℚ) (g : TrafficGraph) :
    (add_data_point W now rx tx g).data_points =
      (g.data_points ++ [(now, rx, tx)]).dropWhile
        (fun p => decide (p.1 < now - W)) := rfl

theorem mem_dropWhile_ge {c : ℚ} :
    ∀ (l : List (ℚ × ℚ × ℚ)), l.Pairwise (fun p q => p.1 ≤ q.1) →
      ∀ s ∈ l.dropWhile (fun p => decide (p.1 < c)), c ≤ s.1 := by
  intro l
  induction l with
  | nil =>
    intro _ s hs
    simp [List.dropWhile] at hs
  | cons a t ih =>
    intro hp s hs
    rw [List.pairwise_cons] at hp
    obtain ⟨ha, hpt⟩ := hp
    rw [List.dropWhile_cons] at hs
    simp only [decide_eq_true_eq] at hs
    by_cases hac : a.1 < c
    · rw [if_pos hac] at hs
      exact ih hpt s hs
    · rw [if_neg hac] at hs
      rcases List.mem_cons.mp hs with h | h
      · subst h
        exact not_lt.mp hac
      · exact le_trans (not_lt.mp hac) (ha s h)

theorem getLast_dropWhile_append {α : Type} (p : α → Bool) (x : α)
    (hx : p x = false) :
    ∀ (l : List α), ((l ++ [x]).dropWhile p).getLast? = some x := by
  intro l
  induction l with
  | nil => simp [List.dropWhile, hx]
  | cons a t ih =>
    rw [List.cons_append, List.dropWhile_cons]
    by_cases hpa : p a = true
    · rw [if_pos hpa]
      exact ih
    · rw [if_neg hpa, ← List.cons_append]
      exact List.getLast?_concat _

theorem add_data_point_ne_nil (W now rx tx : ℚ) (g : TrafficGraph)
    (hW : 0 ≤ W) : (add_data_point W now rx tx g).data_points ≠ [] := by
  have hx : (fun p : ℚ × ℚ × ℚ => decide (p.1 < now - W)) (now, rx, tx) = false := by
    simp only [decide_eq_false_iff_not, not_lt]
    linarith
  have hlast := getLast_dropWhile_append
    (fun p : ℚ × ℚ × ℚ => decide (p.1 < now - W)) (now, rx, tx) hx g.data_points
  intro h
  rw [add_data_point_dps] at h
  rw [h] at hlast
  simp at hlast

/-! ### Claims about the windowed series -/

/-- Claim C7: under the documented invariant that samples are appended
in timestamp order and with a nonnegative window, after an append the
series is nonempty, its latest sample is the appended one, and every
retained sample is at most window_duration older than the latest
append. -/
theorem claim_C7 (W now rx tx : ℚ) (g : TrafficGraph) (hW : 0 ≤ W)
    (hsorted : g.data_points.Pairwise (fun p q => p.1 ≤ q.1))
    (hpast : ∀ p ∈ g.data_points, p.1 ≤ now) :
    (add_data_point W now rx tx g).data_points ≠ [] ∧
    (add_data_point W now rx tx g).data_points.getLast? = some (now, rx, tx) ∧
    ∀ s ∈ (add_data_point W now rx tx g).data_points, now - s.1 ≤ W := by
  have hx : (fun p : ℚ × ℚ × ℚ => decide (p.1 < now - W)) (now, rx, tx) = false := by
    simp only [decide_eq_false_iff_not, not_lt]
    linarith
  refine ⟨add_data_point_ne_nil W now rx tx g hW, ?_, ?_⟩
  · rw [add_data_point_dps]
    exact getLast_dropWhile_append
      (fun p : ℚ × ℚ × ℚ => decide (p.1 < now - W)) (now, rx, tx) hx
      g.data_points
  · intro s hs
    rw [add_data_point_dps] at hs
    have hpair : (g.data_points ++ [(now, rx, tx)]).Pairwise
        (fun p q => p.1 ≤ q.1) := by
      rw [List.pairwise_append]
      refine ⟨hsorted, List.pairwise_singleton _ _, ?_⟩
      intro a ha b hb
      rw [List.mem_singleton] at hb
      subst hb
      exact hpast a ha
    have := mem_dropWhile_ge _ hpair s hs
    linarith

/-- Witness for claim C7 at a concrete input (empty series, window 300,
append at time 10). -/
theorem claim_C7_witness :
    (add_data_point 300 10 1 2 TrafficGraph.init).data_points ≠ [] ∧
    (add_data_point 300 10 1 2 TrafficGraph.init).data_points.getLast? =
      some (10, 1, 2) ∧
    ∀ s ∈ (add_data_point 300 10 1 2 TrafficGraph.init).data_points,
      (10 : ℚ) - s.1 ≤ 300 :=
  claim_C7 300 10 1 2 TrafficGraph.init (by norm_num)
    (by simp [TrafficGraph.init]) (by simp [TrafficGraph.init])

/-- Claim C2 counterexample: from the initial state (max_rate = 1 MiB/s)
a first sample of 850,000 B/s makes the retained peak exceed 80% of the
current max_rate, yet max_rate strictly DECREASES (to 1,020,000 =
850,000 * 1.2 < 1,048,576): the grow branch is not non-decreasing. -/
theorem claim_C2_counterexample :
    TrafficGraph.init.max_rate * 0.8 <
      listMax
        ((add_data_point 300 0 850000 0 TrafficGraph.init).data_points.map
            (fun p => p.2.1) ++
          (add_data_point 300 0 850000 0 TrafficGraph.init).data_points.map
            (fun p => p.2.2)) ∧
    (add_data_point 300 0 850000 0 TrafficGraph.init).max_rate <
      TrafficGraph.init.max_rate := by
  constructor
  · norm_num [add_data_point, auto_scale_update, TrafficGraph.init, listMax,
      List.dropWhile]
  · norm_num [add_data_point, auto_scale_update, TrafficGraph.init, listMax,
      List.dropWhile]

/-- Claim C2 (amended): on a tick where the retained peak exceeds 80% of
the current max_rate, max_rate is set to peak * 1.2 — which can be
below the previous max_rate (grow is not non-decreasing); on a tick
where the peak is below 30% of max_rate and max_rate is above the 1024
floor, max_rate becomes max (peak * 1.5) 1024 and is non-increasing;
on every other tick it is unchanged. -/
theorem claim_C2_amended (W now rx tx : ℚ) (g : TrafficGraph)
    (ha : g.auto_scale = true) (peak : ℚ)
    (hpeak : peak = listMax
      ((add_data_point W now rx tx g).data_points.map (fun p => p.2.1) ++
        (add_data_point W now rx tx g).data_points.map (fun p => p.2.2)))
    (hne : (add_data_point W now rx tx g).data_points ≠ []) :
    (g.max_rate * 0.8 < peak →
      (add_data_point W now rx tx g).max_rate = peak * 1.2) ∧
    (¬ g.max_rate * 0.8 < peak → peak < g.max_rate * 0.3 →
      1024 < g.max_rate →
      (add_data_point W now rx tx g).max_rate = max (peak * 1.5) 1024 ∧
        (add_data_point W now rx tx g).max_rate ≤ g.max_rate) ∧
    (¬ g.max_rate * 0.8 < peak →
      ¬(peak < g.max_rate * 0.3 ∧ 1024 < g.max_rate) →
      (add_data_point W now rx tx g).max_rate = g.max_rate) := by
  have hmr : (add_data_point W now rx tx g).max_rate =
      auto_scale_update g.max_rate g.auto_scale
        (add_data_point W now rx tx g).data_points := rfl
  rw [hmr, ha]
  simp only [auto_scale_update, Bool.true_and]
  rw [← hpeak]
  have h1 : (!((add_data_point W now rx tx g).data_points).isEmpty) = true := by
    cases hdp : (add_data_point W now rx tx g).data_points with
    | nil => exact absurd hdp hne
    | cons a l => simp
  have h2 : (!(((add_data_point W now rx tx g).data_points.map (fun p => p.2.1) ++
      (add_data_point W now rx tx g).data_points.map (fun p => p.2.2)).isEmpty)) =
      true := by
    cases hdp : (add_data_point W now rx tx g).data_points with
    | nil => exact absurd hdp hne
    | cons a l => simp [hdp]
  rw [if_pos h1, if_pos h2]
  refine ⟨?_, ?_, ?_⟩
  · intro hgrow
    rw [if_pos hgrow]
  · intro hng hsh hfl
    rw [if_neg hng, if_pos ⟨hsh, hfl⟩]
    refine ⟨rfl, max_le (by linarith) (by linarith)⟩
  · intro hng hns
    rw [if_neg hng, if_neg hns]

/-- Witness for claim C2 (amended) at the concrete input of the
counterexample (initial series, first sample 850,000 B/s). -/
theorem claim_C2_amended_witness :
    (TrafficGraph.init.max_rate * 0.8 < 850000 →
      (add_data_point 300 0 850000 0 TrafficGraph.init).max_rate =
        850000 * 1.2) ∧
    (¬ TrafficGraph.init.max_rate * 0.8 < 850000 →
      (850000 : ℚ) < TrafficGraph.init.max_rate * 0.3 →
      1024 < TrafficGraph.init.max_rate →
      (add_data_point 300 0 850000 0 TrafficGraph.init).max_rate =
          max ((850000 : ℚ) * 1.5) 1024 ∧
        (add_data_point 300 0 850000 0 TrafficGraph.init).max_rate ≤
          TrafficGraph.init.max_rate) ∧
    (¬ TrafficGraph.init.max_rate * 0.8 < 850000 →
      ¬((850000 : ℚ) < TrafficGraph.init.max_rate * 0.3 ∧
          1024 < TrafficGraph.init.max_rate) →
      (add_data_point 300 0 850000 0 TrafficGraph.init).max_rate =
        TrafficGraph.init.max_rate) :=
  claim_C2_amended 300 0 850000 0 TrafficGraph.init rfl 850000
    (by norm_num [add_data_point, TrafficGraph.init, listMax, List.dropWhile])
    (by norm_num [add_data_point, TrafficGraph.init, List.dropWhile])

/-! ### Helper lemmas for association-list lookups over graph registries -/

theorem lookup_map_entry {β γ : Type} (f : String → β → γ)
    (l : List (String × β)) (i : String) :
    List.lookup i (l.map (fun gi => (gi.1, f gi.1 gi.2))) =
      (List.lookup i l).map (f i) := by
  induction l with
  | nil => simp [List.lookup]
  | cons a t ih =>
    obtain ⟨k, v⟩ := a
    by_cases hik : i = k
    · subst hik
      simp [List.lookup]
    · simp [List.lookup, beq_eq_false_iff_ne.mpr hik, ih]

theorem lookup_of_mem_keys_nodup {β : Type} {l : List (String × β)}
    {i : String} {b : β} (hmem : (i, b) ∈ l)
    (hnd : (l.map Prod.fst).Nodup) : List.lookup i l = some b := by
  induction l with
  | nil => cases hmem
  | cons a t ih =>
    obtain ⟨k, v⟩ := a
    rw [List.map_cons, List.nodup_cons] at hnd
    obtain ⟨hk, hnd2⟩ := hnd
    rcases List.mem_cons.mp hmem with h | h
    · cases h
      simp [List.lookup]
    · have hik : i ≠ k := by
        intro he
        subst he
        exact hk (List.mem_map.mpr ⟨(i, b), h, rfl⟩)
      simp [List.lookup, beq_eq_false_iff_ne.mpr hik, ih h hnd2]

/-- Claim C10: on a tick, every tracked interface's series receives
exactly one appended sample: the interface's entry of the rate map when
present, and a (0, 0) sample otherwise — so a tracked series is
non-empty after its first tick. -/
theorem claim_C10 (W now : ℚ) (graphs : List (String × TrafficGraph))
    (rates : List (String × (ℚ × ℚ))) (hW : 0 ≤ W) (i : String)
    (g : TrafficGraph) (hmem : (i, g) ∈ graphs)
    (hnd : (graphs.map Prod.fst).Nodup) :
    ∃ rx tx : ℚ,
      (List.lookup i rates = some (rx, tx) ∨
        (List.lookup i rates = none ∧ rx = 0 ∧ tx = 0)) ∧
      List.lookup i (update_traffic W now graphs rates) =
        some (add_data_point W now rx tx g) ∧
      (add_data_point W now rx tx g).data_points ≠ [] := by
  have hlk : List.lookup i (update_traffic W now graphs rates) =
      (List.lookup i graphs).map (update_graph_entry W now rates i) :=
    lookup_map_entry (update_graph_entry W now rates) graphs i
  rw [lookup_of_mem_keys_nodup hmem hnd] at hlk
  cases hr : List.lookup i rates with
  | some r =>
    obtain ⟨a, b⟩ := r
    refine ⟨a, b, Or.inl rfl, ?_, add_data_point_ne_nil _ _ _ _ _ hW⟩
    rw [hlk]
    simp [update_graph_entry, hr]
  | none =>
    refine ⟨0, 0, Or.inr ⟨rfl, rfl, rfl⟩, ?_, add_data_point_ne_nil _ _ _ _ _ hW⟩
    rw [hlk]
    simp [update_graph_entry, hr]

/-- Witness for claim C10 at a concrete input (one tracked interface,
empty rate map). -/
theorem claim_C10_witness :
    ∃ rx tx : ℚ,
      (List.lookup "eth0" ([] : List (String × (ℚ × ℚ))) = some (rx, tx) ∨
        (List.lookup "eth0" ([] : List (String × (ℚ × ℚ))) = none ∧
          rx = 0 ∧ tx = 0)) ∧
      List.lookup "eth0"
          (update_traffic 300 10 [("eth0", TrafficGraph.init)] []) =
        some (add_data_point 300 10 rx tx TrafficGraph.init) ∧
      (add_data_point 300 10 rx tx TrafficGraph.init).data_points ≠ [] :=
  claim_C10 300 10 [("eth0", TrafficGraph.init)] [] (by norm_num) "eth0"
    TrafficGraph.init (by simp) (by simp)

/-! ### Claims about startup validation -/

/-- Claim C4 counterexample: with a valid 300-second window and a
non-positive (-5 ms) sample interval, main proceeds to start the
monitoring loop: the sample interval is never validated. -/
theorem claim_C4_counterexample : main_starts 300 (-5) = true := by decide

/-- Claim C4 (amended): startup rejects the configuration if and only
if the window duration is non-positive; the sample interval is not
checked. -/
theorem claim_C4_amended (time_window sample_interval : ℤ) :
    main_starts time_window sample_interval = false ↔ time_window ≤ 0 := by
  rw [main_starts]
  by_cases h : time_window ≤ 0
  · simp [h]
  · simp [h]

end Netchoo
